import Mathlib

/-!
# Verification of the WhatsApp flight-assistant dialogue core

Shallow embedding, in Lean 4, of the dialogue-driven slot-filling engine of
`ai-assistant-whatsapp-template`: the `TravelState` record and its reducers
(`app/langgraph/state.py`), the validator (`app/langgraph/tools/validator.py`),
the information extractor (`app/langgraph/tools/extractor.py`), the
collect-info node (`app/langgraph/nodes/collect_info.py`), the Amadeus search
tool (`app/langgraph/tools/amadeus_search.py`), the flight cache manager
(`app/cache/flight_cache.py`), the search node and graph routing
(`app/langgraph/nodes/search_flights.py`, `app/langgraph/graph.py`), and the
ranking selector (`app/rank/selector.py`).

Conventions used throughout:
* Python `Optional[T]` becomes `Option T`; Python truthiness of an optional
  string (`if not state.get("origin")`) is falsity of `optStrTruthy`
  (both `None` and `""` are falsy).
* Calendar dates are modelled by `SimpleDate` with Python's
  `date.toordinal` day numbering; `datetime.fromisoformat` restricted to the
  canonical `YYYY-MM-DD` strings the pipeline produces becomes `parseIsoDate`.
* Wall-clock instants are passed explicitly (`today : SimpleDate`, a
  seconds-of-day component where the code compares datetimes, and integer
  minutes for the cache's `cached_at` timestamps).
* Confidence floats are modelled as `Rat`; only order comparisons against
  thresholds occur, so exact float representation is irrelevant.
* Regular-expression matching is embedded as executable character-list
  scanners implementing the leftmost-match semantics of `re.search` /
  `re.match` for the specific patterns compiled by the source.
-/

namespace WhatsappFlights

/-! ## Character / string helpers (embedding of the regex character classes) -/

/-- Python `\w` (ASCII): letters, digits, underscore. -/
def isWordChar (c : Char) : Bool := c.isAlphanum || c == '_'

/-- Python `\s`. -/
def isWsChar (c : Char) : Bool := c.isWhitespace

/-- Python `[A-Za-z]`. -/
def isAlphaChar (c : Char) : Bool := c.isAlpha

/-- Case-insensitive prefix test on character lists (re.I literal matching). -/
def isPrefixOfCI : List Char → List Char → Bool
  | [], _ => true
  | _ :: _, [] => false
  | p :: ps, t :: ts => (p.toLower == t.toLower) && isPrefixOfCI ps ts

/-- Case-insensitive substring containment (used for `in` tests on lowered
strings and for keyword literals of `re.search` patterns). -/
def containsCI (pat : List Char) : List Char → Bool
  | [] => isPrefixOfCI pat []
  | c :: ts => isPrefixOfCI pat (c :: ts) || containsCI pat ts

/-- Case-sensitive substring containment (`needle in haystack` on strings that
were already lowercased by the source). -/
def containsStr (haystack pat : String) : Bool :=
  containsCI pat.toList haystack.toList

/-- Split a maximal run of characters satisfying `p` off the front. -/
def takeRun (p : Char → Bool) : List Char → List Char × List Char
  | [] => ([], [])
  | c :: ts =>
    if p c then
      let (r, rest) := takeRun p ts
      (c :: r, rest)
    else ([], c :: ts)

/-- Consume one-or-more whitespace characters (`\s+`, greedy). -/
def dropWs1 (l : List Char) : Option (List Char) :=
  match l with
  | c :: ts => if isWsChar c then some (takeRun isWsChar ts).2 else none
  | [] => none

/-- Numeric value of a digit run (Python `int` on the matched digits). -/
def natOfDigits (l : List Char) : Nat :=
  l.foldl (fun acc c => acc * 10 + (c.toNat - '0'.toNat)) 0

/-- Python `str.lower()` (ASCII). -/
def lowerStr (s : String) : String := String.mk (s.toList.map Char.toLower)

/-- Python `str.upper()` (ASCII). -/
def upperStr (s : String) : String := String.mk (s.toList.map Char.toUpper)

/-- Python `str.strip()`: whitespace removed from both ends. -/
def trimStr (s : String) : String :=
  String.mk (((s.toList.dropWhile isWsChar).reverse.dropWhile isWsChar).reverse)

/-! ## Calendar dates -/

/-- A proleptic-Gregorian calendar date, as produced by
`datetime.fromisoformat("YYYY-MM-DD").date()`. -/
structure SimpleDate where
  year : Nat
  month : Nat
  day : Nat
deriving DecidableEq, Repr

def isLeapYear (y : Nat) : Bool :=
  (y % 4 == 0 && y % 100 != 0) || y % 400 == 0

def daysInMonth (y m : Nat) : Nat :=
  if m == 2 then (if isLeapYear y then 29 else 28)
  else if m == 4 || m == 6 || m == 9 || m == 11 then 30
  else 31

/-- Days in the months strictly before month `m` of a year with leap flag
`leap`. -/
def daysBeforeMonth (leap : Bool) (m : Nat) : Nat :=
  (match m with
   | 1 => 0 | 2 => 31 | 3 => 59 | 4 => 90 | 5 => 120 | 6 => 151
   | 7 => 181 | 8 => 212 | 9 => 243 | 10 => 273 | 11 => 304 | _ => 334)
  + (if leap && decide (2 < m) then 1 else 0)

/-- Python's `date.toordinal`: day number with 0001-01-01 ↦ 1.  Date
comparison and `timedelta.days` of date differences are comparison and
subtraction of ordinals. -/
def SimpleDate.toOrdinal (d : SimpleDate) : Nat :=
  let py := d.year - 1
  (365 * py + py / 4 + py / 400 + daysBeforeMonth (isLeapYear d.year) d.month + d.day)
    - py / 100

/-- A structurally valid Gregorian date within `datetime`'s year range. -/
def SimpleDate.validDate (d : SimpleDate) : Bool :=
  1 ≤ d.year && d.year ≤ 9999 && 1 ≤ d.month && d.month ≤ 12
    && 1 ≤ d.day && d.day ≤ daysInMonth d.year d.month

/-- `^\d{4}-\d{2}-\d{2}$` (the validator's `date_pattern`). -/
def matchesDatePattern (s : String) : Bool :=
  match s.toList with
  | [y1, y2, y3, y4, d1, m1, m2, d2, dd1, dd2] =>
    y1.isDigit && y2.isDigit && y3.isDigit && y4.isDigit && d1 == '-'
      && m1.isDigit && m2.isDigit && d2 == '-' && dd1.isDigit && dd2.isDigit
  | _ => false

/-- `datetime.fromisoformat` on the canonical `YYYY-MM-DD` strings this
pipeline produces: `none` models the `ValueError` raised on anything that is
not such a string or names an invalid calendar date. -/
def parseIsoDate (s : String) : Option SimpleDate :=
  if matchesDatePattern s then
    match s.toList with
    | [y1, y2, y3, y4, _, m1, m2, _, dd1, dd2] =>
      let d : SimpleDate :=
        ⟨natOfDigits [y1, y2, y3, y4], natOfDigits [m1, m2], natOfDigits [dd1, dd2]⟩
      if d.validDate then some d else none
    | _ => none
  else none

/-! ## TravelState (app/langgraph/state.py) -/

inductive TripType where
  | one_way
  | round_trip
  | undecided
deriving DecidableEq, Repr

/-- One `{"user": ..., "bot": ..., "timestamp": ...}` entry of
`conversation_history`. -/
structure ConvTurn where
  user : String
  bot : String
  timestamp : String
deriving DecidableEq, Repr

/-- `TravelState` (state.py).  `ρ` is the type of the raw search-results
payload (a `Dict[str, Any]` in the source). -/
structure TravelState (ρ : Type) where
  origin : Option String
  destination : Option String
  departure_date : Option String
  return_date : Option String
  passengers : Option Int
  trip_type : TripType
  trip_type_confirmed : Bool
  required_fields_complete : Bool
  field_confidence : List (String × Rat)
  validation_errors : List String
  ready_for_api : Bool
  conversation_history : List ConvTurn
  missing_fields : List String
  clarification_attempts : Nat
  user_message : String
  bot_response : String
  search_results : Option ρ
  search_cached : Bool

/-- Python truthiness of an `Optional[str]` slot: `None` and `""` are falsy. -/
def optStrTruthy : Option String → Bool
  | none => false
  | some s => !(s == "")

/-- Python truthiness of an `Optional[int]` slot: `None` and `0` are falsy. -/
def optIntTruthy : Option Int → Bool
  | none => false
  | some n => !(n == 0)

/-- `create_initial_state`. -/
def createInitialState (ρ : Type) : TravelState ρ where
  origin := none
  destination := none
  departure_date := none
  return_date := none
  passengers := none
  trip_type := .undecided
  trip_type_confirmed := false
  required_fields_complete := false
  field_confidence := []
  validation_errors := []
  ready_for_api := false
  conversation_history := []
  missing_fields := []
  clarification_attempts := 0
  user_message := ""
  bot_response := ""
  search_results := none
  search_cached := false

/-- Dict upsert used for `field_confidence[field] = confidence`. -/
def upsertConf : List (String × Rat) → String → Rat → List (String × Rat)
  | [], f, c => [(f, c)]
  | (g, v) :: rest, f, c =>
    if g == f then (g, c) :: rest else (g, v) :: upsertConf rest f c

/-- `add_field_confidence`. -/
def addFieldConfidence {ρ} (s : TravelState ρ) (field : String) (conf : Rat) :
    TravelState ρ :=
  { s with field_confidence := upsertConf s.field_confidence field conf }

/-- `set_trip_type`. -/
def setTripType {ρ} (s : TravelState ρ) (t : TripType) (confirmed : Bool) :
    TravelState ρ :=
  { s with trip_type := t, trip_type_confirmed := confirmed }

/-- `increment_clarification_attempts`. -/
def incrementClarificationAttempts {ρ} (s : TravelState ρ) : TravelState ρ :=
  { s with clarification_attempts := s.clarification_attempts + 1 }

/-- `set_validation_status`. -/
def setValidationStatus {ρ} (s : TravelState ρ) (valid : Bool)
    (errors : List String) : TravelState ρ :=
  { s with required_fields_complete := valid, validation_errors := errors }

/-- `set_api_ready`. -/
def setApiReady {ρ} (s : TravelState ρ) (ready : Bool) : TravelState ρ :=
  { s with ready_for_api := ready }

/-- `set_missing_fields`. -/
def setMissingFields {ρ} (s : TravelState ρ) (missing : List String) :
    TravelState ρ :=
  { s with missing_fields := missing }

/-- `set_search_results` (stores whatever it is handed; the search node hands
it the tool result's optional payload). -/
def setSearchResults {ρ} (s : TravelState ρ) (results : Option ρ)
    (cached : Bool) : TravelState ρ :=
  { s with search_results := results, search_cached := cached }

/-- `update_conversation` (state.py lines 130-157); `nowIso` stands for
`datetime.now().isoformat()`.  The previous turn is re-appended only when it is
non-empty and differs from the last history entry (an empty history makes the
`last_turn.get(...)` comparisons trivially unequal for non-empty messages). -/
def updateConversation {ρ} (nowIso : String) (s : TravelState ρ)
    (userMsg botMsg : String) : TravelState ρ :=
  let hist :=
    if !(s.user_message == "") && !(s.bot_response == "") then
      match s.conversation_history.getLast? with
      | some last =>
        if !(last.user == s.user_message) || !(last.bot == s.bot_response) then
          s.conversation_history ++ [⟨s.user_message, s.bot_response, nowIso⟩]
        else s.conversation_history
      | none => s.conversation_history ++ [⟨s.user_message, s.bot_response, nowIso⟩]
    else s.conversation_history
  { s with
    conversation_history := hist ++ [⟨userMsg, botMsg, nowIso⟩]
    user_message := userMsg
    bot_response := botMsg }

/-- `get_required_fields`. -/
def getRequiredFields : List String := ["origin", "destination", "departure_date"]

/-- `has_required_fields` (an `is not None` check, not truthiness). -/
def hasRequiredFields {ρ} (s : TravelState ρ) : Bool :=
  !s.origin.isNone && !s.destination.isNone && !s.departure_date.isNone

/-- `has_trip_type_decision`. -/
def hasTripTypeDecision {ρ} (s : TravelState ρ) : Bool :=
  decide (s.trip_type = .one_way ∨ s.trip_type = .round_trip)
    && s.trip_type_confirmed

/-! ## Validator (app/langgraph/tools/validator.py)

`validate` is parametrised by `today` (the date of
`datetime.now().replace(hour=0, ...)`) and `sod`, the seconds elapsed since
midnight of `datetime.now()` (which only influences the `days_ahead`
recommendation computation, where the source subtracts a full `datetime`). -/

/-- `ValidationResult`. -/
structure ValidationResult where
  is_valid : Bool
  missing_required : List String
  validation_errors : List String
  recommendations : List String
  ready_for_api : Bool
deriving DecidableEq, Repr

/-- `_validate_required_fields`. -/
def validateRequiredFields {ρ} (s : TravelState ρ) : List String :=
  (if !optStrTruthy s.origin then ["origin"] else [])
    ++ (if !optStrTruthy s.destination then ["destination"] else [])
    ++ (if !optStrTruthy s.departure_date then ["departure_date"] else [])

/-- Location length checks of `_validate_field_formats` for one field. -/
def locationLengthErrors (v : String) (tooShort tooLong : String) : List String :=
  let t := trimStr v
  if t.length < 2 then [tooShort]
  else if t.length > 50 then [tooLong]
  else []

/-- Date-format checks of `_validate_field_formats` for one field. -/
def dateFormatErrors (today : SimpleDate) (v : String)
    (fmtErr pastErr invalidErr : String) : List String :=
  if !matchesDatePattern v then [fmtErr]
  else
    match parseIsoDate v with
    | some d => if d.toOrdinal < today.toOrdinal then [pastErr] else []
    | none => [invalidErr]

/-- `_validate_field_formats`. -/
def validateFieldFormats {ρ} (today : SimpleDate) (s : TravelState ρ) :
    List String :=
  (match s.origin, optStrTruthy s.origin with
   | some v, true => locationLengthErrors v "Origin too short" "Origin too long"
   | _, _ => [])
  ++ (match s.destination, optStrTruthy s.destination with
      | some v, true =>
        locationLengthErrors v "Destination too short" "Destination too long"
      | _, _ => [])
  ++ (match s.departure_date, optStrTruthy s.departure_date with
      | some v, true =>
        dateFormatErrors today v "Departure date must be in YYYY-MM-DD format"
          "Departure date cannot be in the past" "Invalid departure date format"
      | _, _ => [])
  ++ (match s.return_date, optStrTruthy s.return_date with
      | some v, true =>
        dateFormatErrors today v "Return date must be in YYYY-MM-DD format"
          "Return date cannot be in the past" "Invalid return date format"
      | _, _ => [])

/-- `_validate_business_rules`. -/
def validateBusinessRules {ρ} (today : SimpleDate) (s : TravelState ρ) :
    List String :=
  (match s.origin, s.destination with
   | some o, some d =>
     if optStrTruthy s.origin && optStrTruthy s.destination
         && (upperStr o == upperStr d) then
       ["Origin and destination cannot be the same"]
     else []
   | _, _ => [])
  ++ (match s.departure_date, s.return_date with
      | some dv, some rv =>
        if optStrTruthy s.departure_date && optStrTruthy s.return_date then
          match parseIsoDate dv, parseIsoDate rv with
          | some dep, some ret =>
            (if ret.toOrdinal ≤ dep.toOrdinal then
               ["Return date must be after departure date"]
             else [])
            ++ (if (ret.toOrdinal : Int) - (dep.toOrdinal : Int) > 365 then
                  ["Trip duration cannot exceed 1 year"]
                else [])
          | _, _ => []
        else []
      | _, _ => [])
  ++ (match s.departure_date with
      | some dv =>
        if optStrTruthy s.departure_date then
          match parseIsoDate dv with
          | some dep =>
            if dep.toOrdinal > today.toOrdinal + 730 then
              ["Departure date cannot be more than 2 years in the future"]
            else []
          | none => []
        else []
      | none => [])

/-- `_validate_trip_type_logic`. -/
def validateTripTypeLogic {ρ} (s : TravelState ρ) : List String :=
  (if !s.trip_type_confirmed then ["Trip type not confirmed"]
   else if !decide (s.trip_type = .one_way ∨ s.trip_type = .round_trip) then
     ["Trip type must be 'one_way' or 'round_trip'"]
   else [])
  ++ (if decide (s.trip_type = .round_trip) && !optStrTruthy s.return_date then
        ["Round trip must have return date"]
      else [])
  ++ (if decide (s.trip_type = .one_way) && optStrTruthy s.return_date then
        ["One-way trip should not have return date"]
      else [])

/-- `_validate_passenger_count` (the `int(...)` conversion cannot fail on a
typed `Optional[int]` slot, so the `TypeError` branch is unreachable here). -/
def validatePassengerCount {ρ} (s : TravelState ρ) : List String :=
  match s.passengers with
  | none => ["Passenger count is required"]
  | some n =>
    if n < 1 then ["Must have at least 1 passenger"]
    else if n > 9 then ["Cannot book more than 9 passengers"]
    else []

/-- `^[A-Z]{3}$` applied to `v.upper()` (the `airport_code_pattern`). -/
def isAirportCodeUpper (v : String) : Bool :=
  v.length == 3 && (upperStr v).toList.all fun c => c.isUpper && c.isAlpha

/-- `str(state.get(field, ""))` on an always-present key: `None` renders as
the string `"None"`. -/
def strOfOptField : Option String → String
  | none => "None"
  | some s => s

/-- City recommendation block of `_generate_recommendations` for one field. -/
def cityCodeRecommendation (v : String) : List String :=
  if !(v == "") && !isAirportCodeUpper v then
    if lowerStr v == "new york" || lowerStr v == "nyc" then
      ["Consider using airport code JFK, LGA, or EWR for New York"]
    else if lowerStr v == "london" then
      ["Consider using airport code LHR, LGW, or STN for London"]
    else if lowerStr v == "paris" then
      ["Consider using airport code CDG or ORY for Paris"]
    else []
  else []

/-- `_generate_recommendations`; `days_ahead = (dep_midnight - now).days`
with `now = today at sod seconds`, i.e. a floor division of the signed
second difference. -/
def generateRecommendations {ρ} (today : SimpleDate) (sod : Nat)
    (s : TravelState ρ) : List String :=
  cityCodeRecommendation (trimStr (strOfOptField s.origin))
  ++ cityCodeRecommendation (trimStr (strOfOptField s.destination))
  ++ (match s.departure_date with
      | some dv =>
        if optStrTruthy s.departure_date then
          match parseIsoDate dv with
          | some dep =>
            let daysAhead : Int :=
              Int.fdiv (((dep.toOrdinal : Int) - (today.toOrdinal : Int)) * 86400
                - (sod : Int)) 86400
            if daysAhead < 7 then ["Last-minute booking - prices may be higher"]
            else if daysAhead > 60 then
              ["Booking far ahead - consider flexible dates for better prices"]
            else []
          | none => []
        else []
      | none => [])
  ++ (if !hasTripTypeDecision s then
        ["Please confirm if this is a one-way or round trip"]
      else [])

/-- `StateValidatorTool.validate`. -/
def validate {ρ} (today : SimpleDate) (sod : Nat) (s : TravelState ρ) :
    ValidationResult :=
  let missing := validateRequiredFields s
  let errors :=
    validateFieldFormats today s ++ validateBusinessRules today s
      ++ validateTripTypeLogic s ++ validatePassengerCount s
  let recs := generateRecommendations today sod s
  let isValid := missing.isEmpty && errors.isEmpty
  { is_valid := isValid
    missing_required := missing
    validation_errors := errors
    recommendations := recs
    ready_for_api := isValid && hasTripTypeDecision s }

/-- Every error `_validate_field_formats` can emit. -/
def fieldFormatErrorStrings : List String :=
  ["Origin too short", "Origin too long", "Destination too short",
   "Destination too long", "Departure date must be in YYYY-MM-DD format",
   "Departure date cannot be in the past", "Invalid departure date format",
   "Return date must be in YYYY-MM-DD format", "Return date cannot be in the past",
   "Invalid return date format"]

/-- Every error `_validate_trip_type_logic` can emit. -/
def tripTypeErrorStrings : List String :=
  ["Trip type not confirmed", "Trip type must be 'one_way' or 'round_trip'",
   "Round trip must have return date", "One-way trip should not have return date"]

/-- Every error `_validate_passenger_count` can emit. -/
def passengerErrorStrings : List String :=
  ["Passenger count is required", "Must have at least 1 passenger",
   "Cannot book more than 9 passengers"]

/-! ## Extractor (app/langgraph/tools/extractor.py)

The `re` patterns compiled by the source are embedded as executable
character-list scanners.  Each `searchOpt f` / `searchBool f` scans anchors
left to right exactly as `re.search` does, and each anchored matcher `f`
implements the backtracking behaviour of its pattern (worked out per pattern
in the comments). -/

/-- The per-turn map of extracted fields (the `extracted_fields` /
`corrections` dicts).  A missing key is the outer `none`; for `return_date`,
`some none` models a key present with the Python value `None` (the explicit
one-way flip emits exactly that). -/
structure FieldMap where
  origin : Option String := none
  destination : Option String := none
  departure_date : Option String := none
  return_date : Option (Option String) := none
  passengers : Option Int := none
  trip_type : Option TripType := none
deriving DecidableEq, Repr

/-- Dict truthiness: no keys at all. -/
def FieldMap.isEmptyMap (f : FieldMap) : Bool :=
  f.origin.isNone && f.destination.isNone && f.departure_date.isNone
    && f.return_date.isNone && f.passengers.isNone && f.trip_type.isNone

/-- `field in dict` for the six slot names. -/
def FieldMap.keyPresent (f : FieldMap) (name : String) : Bool :=
  if name == "origin" then f.origin.isSome
  else if name == "destination" then f.destination.isSome
  else if name == "departure_date" then f.departure_date.isSome
  else if name == "return_date" then f.return_date.isSome
  else if name == "passengers" then f.passengers.isSome
  else if name == "trip_type" then f.trip_type.isSome
  else false

/-- The keys present in a map, in the fixed canonical slot order (Python dict
insertion order can differ, but no consumer of the confidence map is
order-sensitive). -/
def FieldMap.presentKeys (f : FieldMap) : List String :=
  (if f.origin.isSome then ["origin"] else [])
    ++ (if f.destination.isSome then ["destination"] else [])
    ++ (if f.departure_date.isSome then ["departure_date"] else [])
    ++ (if f.return_date.isSome then ["return_date"] else [])
    ++ (if f.passengers.isSome then ["passengers"] else [])
    ++ (if f.trip_type.isSome then ["trip_type"] else [])

/-- Python `str(...)` rendering of a slot value inside an f-string. -/
def renderOptStr : Option String → String
  | some s => s
  | none => "None"

/-- `fields[name]` rendered as Python would inside an f-string. -/
def FieldMap.render (f : FieldMap) (name : String) : String :=
  if name == "origin" then renderOptStr f.origin
  else if name == "destination" then renderOptStr f.destination
  else if name == "departure_date" then renderOptStr f.departure_date
  else if name == "return_date" then
    match f.return_date with
    | some (some v) => v
    | _ => "None"
  else if name == "passengers" then
    match f.passengers with
    | some n => toString n
    | none => "None"
  else if name == "trip_type" then
    match f.trip_type with
    | some .one_way => "one_way"
    | some .round_trip => "round_trip"
    | some .undecided => "undecided"
    | none => "None"
  else ""

/-- Whether two maps hold the same value at a key (the `!=` comparison of the
LLM-conflict branch). -/
def FieldMap.sameValueAt (a b : FieldMap) (name : String) : Bool :=
  if name == "origin" then a.origin == b.origin
  else if name == "destination" then a.destination == b.destination
  else if name == "departure_date" then a.departure_date == b.departure_date
  else if name == "return_date" then a.return_date == b.return_date
  else if name == "passengers" then a.passengers == b.passengers
  else if name == "trip_type" then decide (a.trip_type = b.trip_type)
  else true

/-- Leftmost-anchor scan: `re.search` semantics for an anchored matcher. -/
def searchOpt {α} (f : List Char → Option α) : List Char → Option α
  | [] => f []
  | c :: ts =>
    match f (c :: ts) with
    | some r => some r
    | none => searchOpt f ts

/-- Leftmost-anchor scan for patterns used only as a Boolean test. -/
def searchBool (f : List Char → Bool) : List Char → Bool
  | [] => f []
  | c :: ts => f (c :: ts) || searchBool f ts

/-- Greedy `\w+` anchored at the front (`none` if the first character is not a
word character).  A maximal run is exact here: every use site requires the run
to be followed by a non-word construct, so shorter backtracks always fail. -/
def takeWord1 (l : List Char) : Option (List Char × List Char) :=
  let p := takeRun isWordChar l
  if p.1.isEmpty then none else some p

/-- Anchored `from\s+([A-Z]{3}|\w+)\s+to\s+([A-Z]{3}|\w+)` (re.I).  Group 1 is
always the maximal word run (the `[A-Z]{3}` branch can only succeed when it
coincides with it, because `\s+` must follow); group 2 is the first three
letters when three letters follow, else the maximal word run, because the
pattern ends there and the alternation prefers `[A-Z]{3}` (which under re.I is
any three letters). -/
def fromToAt (l : List Char) : Option (String × String) :=
  if isPrefixOfCI "from".toList l then
    match dropWs1 (l.drop 4) with
    | none => none
    | some r1 =>
      match takeWord1 r1 with
      | none => none
      | some (w1, r2) =>
        match dropWs1 r2 with
        | none => none
        | some r3 =>
          if isPrefixOfCI "to".toList r3 then
            match dropWs1 (r3.drop 2) with
            | none => none
            | some r5 =>
              match r5 with
              | a :: b :: c :: _ =>
                if isAlphaChar a && isAlphaChar b && isAlphaChar c then
                  some (String.mk w1, String.mk [a, b, c])
                else
                  (takeWord1 r5).map fun p => (String.mk w1, String.mk p.1)
              | _ => (takeWord1 r5).map fun p => (String.mk w1, String.mk p.1)
          else none
  else none

/-- Digit-run splitter (`\d+`). -/
def takeDigits (l : List Char) : List Char × List Char := takeRun Char.isDigit l

/-- Anchored first alternative of the fast-parse date pattern: one or two
digits, a slash-or-dash separator, one or two digits, another separator, and
two to four digits.  A digit run longer than two cannot satisfy the separator
that must follow, so runs of length one or two are the only candidates. -/
def dateAlt1At (l : List Char) : Option (List Char) :=
  let (d1, r1) := takeDigits l
  if d1.length == 0 || decide (2 < d1.length) then none
  else
    match r1 with
    | s1 :: r2 =>
      if s1 == '/' || s1 == '-' then
        let (d2, r3) := takeDigits r2
        if d2.length == 0 || decide (2 < d2.length) then none
        else
          match r3 with
          | s2 :: r4 =>
            if s2 == '/' || s2 == '-' then
              let (d3, _) := takeDigits r4
              if d3.length < 2 then none
              else some (d1 ++ s1 :: d2 ++ s2 :: d3.take 4)
            else none
          | [] => none
      else none
    | [] => none

/-- Optional ordinal suffix `(?:st|nd|rd|th)?` (re.I), greedy. -/
def ordinalSuffix (l : List Char) : List Char :=
  if isPrefixOfCI "st".toList l then "st".toList
  else if isPrefixOfCI "nd".toList l then "nd".toList
  else if isPrefixOfCI "rd".toList l then "rd".toList
  else if isPrefixOfCI "th".toList l then "th".toList
  else []

/-- Anchored `\w+\s+\d{1,2}(?:st|nd|rd|th)?` (second alternative of the
fast-parse date pattern). -/
def dateAlt2At (l : List Char) : Option (List Char) :=
  match takeWord1 l with
  | none => none
  | some (w, r1) =>
    match r1 with
    | c :: _ =>
      if isWsChar c then
        let (ws, r2) := takeRun isWsChar r1
        let (d, r3) := takeDigits r2
        if d.isEmpty then none
        else
          let dd := d.take 2
          let rest := d.drop 2 ++ r3
          some (w ++ ws ++ dd ++ ordinalSuffix rest)
      else none
    | [] => none

/-- Anchored fast-parse date pattern (alternation, first branch preferred). -/
def fastDateAt (l : List Char) : Option (List Char) :=
  match dateAlt1At l with
  | some g => some g
  | none => dateAlt2At l

/-- Anchored `(\d+)\s*(?:passengers?|people|persons?|pax)` (re.I); matching the
keyword alternation is equivalent to one of four case-insensitive prefixes. -/
def paxAt (l : List Char) : Option Nat :=
  let (d, r1) := takeDigits l
  if d.isEmpty then none
  else
    let r2 := (takeRun isWsChar r1).2
    if isPrefixOfCI "passenger".toList r2 || isPrefixOfCI "people".toList r2
        || isPrefixOfCI "person".toList r2 || isPrefixOfCI "pax".toList r2 then
      some (natOfDigits d)
    else none

/-! ### Conservative single-city context extraction -/

/-- Tokens two and three of `^([A-Za-z]{3,}(?:\s+[A-Za-z]+){0,2})$`. -/
def restCityTokens : Nat → List Char → Bool
  | _, [] => true
  | 0, _ :: _ => false
  | n + 1, l =>
    match dropWs1 l with
    | none => false
    | some r =>
      let (a, r2) := takeRun isAlphaChar r
      if a.isEmpty then false else restCityTokens n r2

/-- Full-string match of `^([A-Za-z]{3,}(?:\s+[A-Za-z]+){0,2})$` (the match
succeeds exactly when the whole string is one-to-three whitespace-separated
alphabetic tokens, the first at least three letters long; the captured group
is then the whole string). -/
def singleCityOk (l : List Char) : Bool :=
  let (a, r) := takeRun isAlphaChar l
  if a.length < 3 then false else restCityTokens 2 r

/-- The fixed `forbidden_words` block-list of conversational fillers. -/
def forbiddenWords : List String :=
  ["hello", "hi", "hey", "good", "morning", "afternoon", "evening", "thanks",
   "thank", "you", "please", "yes", "no", "okay", "ok", "sure", "great",
   "perfect", "excellent", "nice"]

inductive CtxField where
  | origin
  | destination
deriving DecidableEq, Repr

/-- The most recent history turn with a truthy bot message. -/
def lastBotMessage {ρ} (s : TravelState ρ) : String :=
  match s.conversation_history.reverse.find? (fun t => !(t.bot == "")) with
  | some t => t.bot
  | none => ""

/-- `_try_conservative_context_extraction`: which location slot (if any) a
bare city reply is assigned to, and the (uppercased) value. -/
def tryConservativeContextExtraction {ρ} (msg : String) (s : TravelState ρ) :
    Option (CtxField × String) :=
  let stripped := trimStr msg
  if !singleCityOk stripped.toList then none
  else
    let city := stripped
    if forbiddenWords.contains (lowerStr city) then none
    else if s.conversation_history.isEmpty then none
    else
      let lbm := lowerStr (lastBotMessage s)
      if lbm == "" then none
      else if (containsStr lbm "where are you flying from"
            || containsStr lbm "flying from") && !optStrTruthy s.origin then
        match s.destination with
        | some d =>
          if optStrTruthy s.destination && upperStr city == upperStr d then none
          else some (.origin, upperStr city)
        | none => some (.origin, upperStr city)
      else if (containsStr lbm "where would you like to go"
            || containsStr lbm "where to" || containsStr lbm "destination")
          && !optStrTruthy s.destination then
        match s.origin with
        | some o =>
          if optStrTruthy s.origin && upperStr city == upperStr o then none
          else some (.destination, upperStr city)
        | none => some (.destination, upperStr city)
      else none

/-- A `{"method": ..., "confidence": ..., "fields": ...}` extraction-pass
result. -/
structure PassResult where
  fields : FieldMap
  confidence : Rat
deriving DecidableEq, Repr

/-- `_try_fast_parse`. -/
def tryFastParse {ρ} (msg : String) (s : TravelState ρ) : Option PassResult :=
  let l := msg.toList
  let f1 : FieldMap :=
    match searchOpt fromToAt l with
    | some (g1, g2) =>
      { origin := some (upperStr g1), destination := some (upperStr g2) }
    | none => {}
  let f2 : FieldMap :=
    match searchOpt fastDateAt l with
    | some d => { f1 with departure_date := some (String.mk d) }
    | none => f1
  let f3 : FieldMap :=
    match searchOpt paxAt l with
    | some n => { f2 with passengers := some (n : Int) }
    | none => f2
  if f3.isEmptyMap then
    match tryConservativeContextExtraction msg s with
    | some (.origin, v) => some ⟨{ origin := some v }, 0.90⟩
    | some (.destination, v) => some ⟨{ destination := some v }, 0.90⟩
    | none => none
  else some ⟨f3, 0.95⟩

/-- `_try_llm_extraction` is short-circuited in the source ("temporarily
disabled"): it returns `None` unconditionally. -/
def tryLlmExtraction : Option PassResult := none

/-! ### Correction patterns (`_compile_correction_patterns`) -/

/-- Optional `no,?\s+` head of the date-correction pattern: with the comma
when present and followed by whitespace, without it otherwise. -/
def afterNo (l : List Char) : Option (List Char) :=
  if isPrefixOfCI "no".toList l then
    match l.drop 2 with
    | ',' :: r2 =>
      match dropWs1 r2 with
      | some r3 => some r3
      | none => none
    | r => dropWs1 r
  else none

/-- Optional literal-plus-whitespace head such as `on\s+` or `the\s+`. -/
def afterLit (word : String) (l : List Char) : Option (List Char) :=
  if isPrefixOfCI word.toList l then dropWs1 (l.drop word.length) else none

/-- Anchored `\w+\s+\d+` (shared by the date-correction alternatives and the
add-return group). -/
def wordWsDigits (l : List Char) : Option (List Char) :=
  match takeWord1 l with
  | none => none
  | some (w, r1) =>
    match r1 with
    | c :: _ =>
      if isWsChar c then
        let (ws, r2) := takeRun isWsChar r1
        let (d, _) := takeDigits r2
        if d.isEmpty then none else some (w ++ ws ++ d)
      else none
    | [] => none

/-- Anchored `[A-Za-z]+\s+\d+` (third date-correction alternative; for ASCII
text it can only succeed where the second already did, but it is kept for
fidelity to the compiled pattern). -/
def alphaWsDigits (l : List Char) : Option (List Char) :=
  let (a, r1) := takeRun isAlphaChar l
  if a.isEmpty then none
  else
    match r1 with
    | c :: _ =>
      if isWsChar c then
        let (ws, r2) := takeRun isWsChar r1
        let (d, _) := takeDigits r2
        if d.isEmpty then none else some (a ++ ws ++ d)
      else none
    | [] => none

/-- The captured group of the date-correction pattern: digits with an optional
ordinal suffix, else a word then digits. -/
def dateCorrGroupAt (l : List Char) : Option (List Char) :=
  let (d, r) := takeDigits l
  if !d.isEmpty then some (d ++ ordinalSuffix r)
  else
    match wordWsDigits l with
    | some g => some g
    | none => alphaWsDigits l

/-- Anchored date-correction pattern `(?:no,?\s+)?(?:on\s+)?(?:the\s+)?(...)`:
the optional heads are tried greedily (all present first), backtracking later
heads before earlier ones. -/
def dateCorrAt (l : List Char) : Option (List Char) :=
  let cands : List (List Char) :=
    (match afterNo l with
     | some l1 =>
       (match afterLit "on" l1 with
        | some l2 =>
          (match afterLit "the" l2 with
           | some l3 => [l3, l2]
           | none => [l2])
        | none => [])
       ++ (match afterLit "the" l1 with
           | some l2 => [l2]
           | none => [])
       ++ [l1]
     | none => [])
    ++ (match afterLit "on" l with
        | some l1 =>
          (match afterLit "the" l1 with
           | some l2 => [l2, l1]
           | none => [l1])
        | none => [])
    ++ (match afterLit "the" l with
        | some l1 => [l1]
        | none => [])
    ++ [l]
  cands.findSome? dateCorrGroupAt

/-- First keyword of an alternation such as `(?:change|make|switch)` matching
at this anchor, returning the rest after it. -/
def keywordAt (kws : List String) (l : List Char) : Option (List Char) :=
  kws.findSome? fun k =>
    if isPrefixOfCI k.toList l then some (l.drop k.length) else none

/-- The trailing group of the change-origin/destination patterns: from the
first alphabetic character on, three letters when three follow (the preferred
`[A-Z]{3}` branch under re.I), else the maximal letter run. -/
def groupAfterLiteral : List Char → Option (List Char)
  | [] => none
  | c :: ts =>
    if isAlphaChar c then
      match ts with
      | b :: d :: _ =>
        if isAlphaChar b && isAlphaChar d then some [c, b, d]
        else some (takeRun isAlphaChar (c :: ts)).1
      | _ => some (takeRun isAlphaChar (c :: ts)).1
    else groupAfterLiteral ts

/-- Greedy `.*(?:lit1|lit2).*?(group)`: the rightmost literal occurrence whose
remainder still contains a letter wins. -/
def scanRightLits (lits : List String) : List Char → Option (List Char)
  | [] =>
    lits.findSome? fun lit =>
      if isPrefixOfCI lit.toList [] then groupAfterLiteral [] else none
  | c :: ts =>
    match scanRightLits lits ts with
    | some g => some g
    | none =>
      lits.findSome? fun lit =>
        if isPrefixOfCI lit.toList (c :: ts) then
          groupAfterLiteral ((c :: ts).drop lit.length)
        else none

/-- Anchored `(?:change|make|switch).*(?:to|destination).*?([A-Z]{3}|[A-Za-z]+)`
(and its change-origin sibling, parametrised by the middle literals). -/
def changeFieldAt (lits : List String) (l : List Char) : Option (List Char) :=
  match keywordAt ["change", "make", "switch"] l with
  | some rest => scanRightLits lits rest
  | none => none

/-- Second keyword of `change_passengers`:
`(?:people|passengers|adults|person)` somewhere in the remainder. -/
def paxKw2After (l : List Char) : Bool :=
  searchBool
    (fun r =>
      isPrefixOfCI "people".toList r || isPrefixOfCI "passengers".toList r
        || isPrefixOfCI "adults".toList r || isPrefixOfCI "person".toList r) l

/-- Lazy `.*?(\d+)` with the passenger keyword required afterwards: the first
digit run that still has the keyword somewhere after it (positions inside a
failing run fail for the same reason and are skipped by the scan). -/
def paxGroupScan : List Char → Option Nat
  | [] => none
  | c :: ts =>
    if c.isDigit then
      let p := takeRun Char.isDigit (c :: ts)
      if paxKw2After p.2 then some (natOfDigits p.1) else paxGroupScan ts
    else paxGroupScan ts

/-- Anchored `(?:change|make|now|actually).*?(\d+).*?(?:people|passengers|adults|person)`. -/
def changePaxAt (l : List Char) : Option Nat :=
  match keywordAt ["change", "make", "now", "actually"] l with
  | some rest => paxGroupScan rest
  | none => none

/-- First (lazy) case-insensitive occurrence of `pat`, returning the suffix
after it. -/
def findAfterCI (pat : String) : List Char → Option (List Char)
  | [] => if isPrefixOfCI pat.toList [] then some [] else none
  | c :: ts =>
    if isPrefixOfCI pat.toList (c :: ts) then some ((c :: ts).drop pat.length)
    else findAfterCI pat ts

/-- The add-return group `(\d+|\w+\s+\d+)` at this anchor. -/
def addReturnGroupAt (l : List Char) : Option (List Char) :=
  let (d, _) := takeDigits l
  if !d.isEmpty then some d else wordWsDigits l

/-- Lazy `.*?(?:on\s+)?(\d+|\w+\s+\d+)`: at each position the optional
`on\s+` head is preferred, then dropped, before moving right. -/
def addReturnGroupScan : List Char → Option (List Char)
  | [] => none
  | c :: ts =>
    let l := c :: ts
    match
      (match afterLit "on" l with
       | some r => addReturnGroupAt r
       | none => none) with
    | some g => some g
    | none =>
      match addReturnGroupAt l with
      | some g => some g
      | none => addReturnGroupScan ts

/-- Anchored `(?:add|include|with|need).*?return.*?(?:on\s+)?(\d+|\w+\s+\d+)`. -/
def addReturnAt (l : List Char) : Option (List Char) :=
  match keywordAt ["add", "include", "with", "need"] l with
  | none => none
  | some rest =>
    match findAfterCI "return" rest with
    | none => none
    | some r2 => addReturnGroupScan r2

/-- Anchored `(?:one.way|oneway|no return|just one way)` (re.I); the dot
matches any single character. -/
def oneWayAt (l : List Char) : Bool :=
  (isPrefixOfCI "one".toList l
    && (match l.drop 3 with
        | _ :: rest => isPrefixOfCI "way".toList rest
        | [] => false))
  || isPrefixOfCI "oneway".toList l
  || isPrefixOfCI "no return".toList l
  || isPrefixOfCI "just one way".toList l

/-- Anchored `(?:round.trip|roundtrip|return|coming back)` (re.I). -/
def roundTripAt (l : List Char) : Bool :=
  (isPrefixOfCI "round".toList l
    && (match l.drop 5 with
        | _ :: rest => isPrefixOfCI "trip".toList rest
        | [] => false))
  || isPrefixOfCI "roundtrip".toList l
  || isPrefixOfCI "return".toList l
  || isPrefixOfCI "coming back".toList l

/-- `_detect_corrections`, iterating the pattern dict in its insertion order
(later assignments to the same key overwrite earlier ones).  `toIsoDate`
stands for `app.utils.dates.to_iso_date`, an external collaborator (it
consults the live clock and the `dateparser` library); it returns `""` when
the text cannot be parsed, which the source treats as falsy.  The
`current_state` parameter of the source method is unused by its body. -/
def detectCorrections (toIsoDate : String → String) (msg : String) : FieldMap :=
  let l := msg.toList
  let m : FieldMap := {}
  let m :=
    match searchOpt dateCorrAt l with
    | some g =>
      let nd := toIsoDate (String.mk g)
      if !(nd == "") then { m with departure_date := some nd } else m
    | none => m
  let m :=
    match searchOpt (changeFieldAt ["to", "destination"]) l with
    | some g => { m with destination := some (upperStr (trimStr (String.mk g))) }
    | none => m
  let m :=
    match searchOpt (changeFieldAt ["from", "origin"]) l with
    | some g => { m with origin := some (upperStr (trimStr (String.mk g))) }
    | none => m
  let m :=
    match searchOpt changePaxAt l with
    | some n =>
      if 1 ≤ n && n ≤ 9 then { m with passengers := some (n : Int) } else m
    | none => m
  let m :=
    match searchOpt addReturnAt l with
    | some g =>
      let rd := toIsoDate (String.mk g)
      if !(rd == "") then
        { m with return_date := some (some rd), trip_type := some .round_trip }
      else m
    | none => m
  let m :=
    if searchBool oneWayAt l then
      { m with trip_type := some .one_way, return_date := some none }
    else m
  let m :=
    if searchBool roundTripAt l then { m with trip_type := some .round_trip }
    else m
  m

/-! ### Combining the passes (`_combine_results`, `_detect_ambiguities`) -/

/-- `field_confidence.get(field, 0)`. -/
def lookupConf (conf : List (String × Rat)) (name : String) : Rat :=
  match conf.find? (fun kv => kv.1 == name) with
  | some kv => kv.2
  | none => 0

/-- Merge a lower-priority map into a higher-priority one (keys already
present are never overridden). -/
def mergeMaps (hi lo : FieldMap) : FieldMap where
  origin := match hi.origin with | some v => some v | none => lo.origin
  destination := match hi.destination with | some v => some v | none => lo.destination
  departure_date :=
    match hi.departure_date with | some v => some v | none => lo.departure_date
  return_date := match hi.return_date with | some v => some v | none => lo.return_date
  passengers := match hi.passengers with | some v => some v | none => lo.passengers
  trip_type := match hi.trip_type with | some v => some v | none => lo.trip_type

/-- `ExtractionResult`. -/
structure ExtractionResult where
  extracted_fields : FieldMap
  field_confidence : List (String × Rat)
  ambiguous_fields : List String
  suggested_clarifications : List String
  extraction_method : String
deriving DecidableEq, Repr

/-- `_detect_ambiguities` (appends to the ambiguity and clarification lists). -/
def detectAmbiguities (fields : FieldMap) (confidence : List (String × Rat))
    (ambiguous clar : List String) : List String × List String :=
  let p :=
    confidence.foldl
      (fun (acc : List String × List String) kv =>
        if kv.2 < 0.7 && !acc.1.contains kv.1 then
          (acc.1 ++ [kv.1],
           acc.2 ++ ["Just to confirm, " ++ kv.1 ++ " is "
              ++ fields.render kv.1 ++ "?"])
        else acc)
      (ambiguous, clar)
  let cl :=
    if fields.departure_date.isSome && !fields.return_date.isSome
        && !fields.trip_type.isSome then
      p.2 ++ ["Is this a one-way trip, or do you need a return flight?"]
    else p.2
  let cl :=
    match fields.passengers with
    | some n =>
      if n > 6 then
        cl ++ ["Just checking - you need " ++ toString n
          ++ " passenger tickets?"]
      else cl
    | none => cl
  (p.1, cl)

/-- `_combine_results`.  (`tryLlmExtraction` always returns `none`, so the
LLM branch is dead at runtime; it is embedded for completeness.) -/
def combineResults (fast llm : Option PassResult) (corr : FieldMap) :
    ExtractionResult :=
  let hasCorr := !corr.isEmptyMap
  let fields1 := if hasCorr then corr else {}
  let conf1 :=
    if hasCorr then corr.presentKeys.map (fun k => (k, (0.98 : Rat))) else []
  let method1 := if hasCorr then "correction" else "none"
  let (fields2, conf2, method2) :=
    match fast with
    | some fr =>
      let newKeys := fr.fields.presentKeys.filter (fun k => !fields1.keyPresent k)
      (mergeMaps fields1 fr.fields,
       conf1 ++ newKeys.map (fun k => (k, fr.confidence)),
       if method1 == "none" then "fast_parse" else method1 ++ "+fast_parse")
    | none => (fields1, conf1, method1)
  let (fields3, conf3, ambig3, clar3, method3) :=
    match llm with
    | some lr =>
      let newKeys := lr.fields.presentKeys.filter (fun k => !fields2.keyPresent k)
      let conflicts :=
        lr.fields.presentKeys.filter fun k =>
          fields2.keyPresent k && decide (lookupConf conf2 k < 0.9)
            && !fields2.sameValueAt lr.fields k
      (mergeMaps fields2 lr.fields,
       conf2 ++ newKeys.map (fun k => (k, lr.confidence)),
       conflicts,
       conflicts.map (fun k =>
         "I found conflicting information for " ++ k ++ ": "
           ++ fields2.render k ++ " vs " ++ lr.fields.render k
           ++ ". Which is correct?"),
       if method2 == "none" then "llm" else method2 ++ "+llm")
    | none => (fields2, conf2, [], [], method2)
  let (ambig4, clar4) := detectAmbiguities fields3 conf3 ambig3 clar3
  { extracted_fields := fields3
    field_confidence := conf3
    ambiguous_fields := ambig4
    suggested_clarifications := clar4
    extraction_method := if method3 == "none" then "no_extraction" else method3 }

/-- `InformationExtractorTool._run`. -/
def extractorRun {ρ} (toIsoDate : String → String) (msg : String)
    (s : TravelState ρ) : ExtractionResult :=
  let fast := tryFastParse msg s
  let llm := tryLlmExtraction
  let corr := detectCorrections toIsoDate msg
  combineResults fast llm corr

/-! ## CollectInfo node (app/langgraph/nodes/collect_info.py) -/

/-- `add_extracted_info`: only the five listed slots are merged and only when
the incoming value is not `None` (so `return_date: None` is dropped). -/
def addExtractedInfo {ρ} (s : TravelState ρ) (u : FieldMap) : TravelState ρ :=
  { s with
    origin := match u.origin with | some v => some v | none => s.origin
    destination :=
      match u.destination with | some v => some v | none => s.destination
    departure_date :=
      match u.departure_date with | some v => some v | none => s.departure_date
    return_date :=
      match u.return_date with | some (some v) => some v | _ => s.return_date
    passengers :=
      match u.passengers with | some v => some v | none => s.passengers }

/-- `CollectInfoNode._update_state_with_extraction`. -/
def updateStateWithExtraction {ρ} (s : TravelState ρ) (r : ExtractionResult) :
    TravelState ρ :=
  if r.extracted_fields.isEmptyMap then s
  else
    let s1 := addExtractedInfo s r.extracted_fields
    let s2 :=
      r.field_confidence.foldl
        (fun st kv => addFieldConfidence st kv.1 kv.2) s1
    let s3 :=
      match r.extracted_fields.trip_type with
      | some t =>
        if t = .one_way ∨ t = .round_trip then setTripType s2 t true else s2
      | none =>
        match r.extracted_fields.return_date with
        | some rv => if optStrTruthy rv then setTripType s2 .round_trip true else s2
        | none => s2
    if !optIntTruthy s3.passengers then
      addExtractedInfo s3 { passengers := some 1 }
    else s3

/-! ## Flight cache (app/cache/flight_cache.py, app/session/redis_store.py)

The Redis key-value store (in its client-connected mode) is modelled as an
association list keyed by the final Redis key string; `md5hex` stands for
`hashlib.md5(...).hexdigest()`, an external library function, passed in as a
collaborator.  Timestamps (`cached_at`, from `datetime.now().isoformat()`)
are modelled as integer minutes, which is the sole granularity the freshness
check compares at. -/

/-- The `{"results": ..., "cached_at": ..., "ttl": ...}` wrapper written by
`cache_results`. -/
structure CacheEntry (ρ : Type) where
  results : ρ
  cached_at : Int
  ttl : Int
deriving DecidableEq, Repr

def CacheStore (ρ : Type) := List (String × CacheEntry ρ)

def storeLookup {ρ} (store : CacheStore ρ) (key : String) :
    Option (CacheEntry ρ) :=
  match List.find? (fun kv => kv.1 == key) store with
  | some kv => some kv.2
  | none => none

def storeInsert {ρ} (store : CacheStore ρ) (key : String) (e : CacheEntry ρ) :
    CacheStore ρ :=
  match store with
  | [] => [(key, e)]
  | kv :: rest =>
    if kv.1 == key then (key, e) :: rest else kv :: storeInsert rest key e

/-- `RedisSessionStore.get_cached_search` (connected mode; the in-memory
fallback mode never stores flight caches at all). -/
def getCachedSearch {ρ} (store : CacheStore ρ) (key : String) :
    Option (CacheEntry ρ) :=
  storeLookup store ("flight:" ++ key)

/-- `RedisSessionStore.cache_search` (connected mode). -/
def cacheSearch {ρ} (store : CacheStore ρ) (key : String) (e : CacheEntry ρ) :
    CacheStore ρ :=
  storeInsert store ("flight:" ++ key) e

/-- `FlightCacheManager.create_cache_key`. -/
def createCacheKeyMgr (md5hex : String → String) (origin destination dep : String)
    (ret : Option String) (adults : Int) (cabin : String) : String :=
  md5hex (String.intercalate "|"
    [upperStr origin, upperStr destination, dep, ret.getD "ONEWAY",
     toString adults, cabin])

/-- `FlightCacheManager.cache_results`. -/
def cacheResults {ρ} (store : CacheStore ρ) (nowMin : Int) (ttl : Int)
    (key : String) (results : ρ) : CacheStore ρ :=
  cacheSearch store key ⟨results, nowMin, ttl⟩

/-- `FlightCacheManager._is_cache_fresh` with its default 60-minute window.
Entries written by `cacheResults` always carry `cached_at`, so the
missing-metadata guard (which returns fresh) never fires in this model. -/
def isCacheFresh {ρ} (nowMin : Int) (e : CacheEntry ρ) (maxAgeMinutes : Int) :
    Bool :=
  nowMin - e.cached_at < maxAgeMinutes

/-- What `get_cached_or_fetch` hands back: either the raw provider payload or
the cached wrapper dict (the source returns the one or the other object). -/
inductive CacheValue (ρ : Type) where
  | raw (r : ρ)
  | entry (e : CacheEntry ρ)
deriving DecidableEq, Repr

structure FetchOutcome (ρ : Type) where
  value : Except String (CacheValue ρ)
  store : CacheStore ρ
  hits : Nat
  misses : Nat

/-- `FlightCacheManager.get_cached_or_fetch`; `fetch` is the (awaited)
provider call, `.error` standing for a raised exception. -/
def getCachedOrFetch {ρ} (md5hex : String → String) (nowMin : Int)
    (store : CacheStore ρ) (hits misses : Nat)
    (origin destination dep : String) (ret : Option String) (adults : Int)
    (fetch : Except String ρ) : FetchOutcome ρ :=
  let cacheKey := createCacheKeyMgr md5hex origin destination dep ret adults "ECONOMY"
  match getCachedSearch store cacheKey with
  | some e =>
    if isCacheFresh nowMin e 60 then ⟨.ok (.entry e), store, hits + 1, misses⟩
    else
      match fetch with
      | .ok r =>
        ⟨.ok (.raw r), cacheResults store nowMin 3600 cacheKey r,
         hits + 1, misses + 1⟩
      | .error _ => ⟨.ok (.entry e), store, hits + 1, misses + 1⟩
  | none =>
    match fetch with
    | .ok r =>
      ⟨.ok (.raw r), cacheResults store nowMin 3600 cacheKey r,
       hits, misses + 1⟩
    | .error ex => ⟨.error ex, store, hits, misses + 1⟩

/-! ## Amadeus search tool (app/langgraph/tools/amadeus_search.py) -/

/-- `SearchParams`. -/
structure SearchParams where
  origin : String
  destination : String
  departure_date : String
  return_date : Option String
  passengers : Int
  trip_type : TripType
deriving DecidableEq, Repr

/-- `SearchResult`. -/
structure SearchResult (ρ : Type) where
  success : Bool
  results : Option ρ := none
  error : Option String := none
  cached : Bool := false
  cache_key : Option String := none
  search_duration_ms : Option Nat := none
deriving DecidableEq, Repr

/-- `_resolve_airport_code`'s `city_mappings`. -/
def cityMappings : List (String × String) :=
  [("NEW YORK", "JFK"), ("NYC", "JFK"), ("LONDON", "LHR"), ("LON", "LHR"),
   ("PARIS", "CDG"), ("PAR", "CDG"), ("LOS ANGELES", "LAX"), ("LA", "LAX"),
   ("TOKYO", "NRT"), ("CHICAGO", "ORD"), ("MIAMI", "MIA"), ("BOSTON", "BOS"),
   ("SAN FRANCISCO", "SFO"), ("WASHINGTON", "DCA"), ("ATLANTA", "ATL")]

/-- `_resolve_airport_code`. -/
def resolveAirportCode (location : String) : String :=
  let u := trimStr (upperStr location)
  if u.length == 3 && u.toList.all isAlphaChar then u
  else
    match List.find? (fun kv => kv.1 == u) cityMappings with
    | some kv => kv.2
    | none => u

/-- `_extract_search_params`; `.error` models the `ValueError` raised on
missing parameters (and the `TypeError` from `int(None)` when the passenger
slot holds `None`), both caught by the caller. -/
def extractSearchParams {ρ} (s : TravelState ρ) : Except String SearchParams :=
  let return_date := if s.trip_type = .round_trip then s.return_date else none
  match s.origin, s.destination, s.departure_date with
  | some o, some d, some dd =>
    if o == "" || d == "" || dd == "" then
      .error "Missing required search parameters"
    else
      match s.passengers with
      | none => .error "int() argument must not be NoneType"
      | some p =>
        .ok { origin := resolveAirportCode o, destination := resolveAirportCode d,
              departure_date := dd, return_date := return_date,
              passengers := p, trip_type := s.trip_type }
  | _, _, _ => .error "Missing required search parameters"

/-- `_create_cache_key` (the tool's own joined key — unlike
`FlightCacheManager.create_cache_key` it is neither hashed nor
cabin-suffixed). -/
def createCacheKeyTool (p : SearchParams) : String :=
  String.intercalate "|"
    [p.origin, p.destination, p.departure_date, p.return_date.getD "ONEWAY",
     toString p.passengers]

/-- `_check_cache`: the source calls
`self.cache_manager.get_cached_results(cache_key)`, but `FlightCacheManager`
defines no method named `get_cached_results` (its readers are
`get_cached_or_fetch` and `redis_store.get_cached_search`), so the call
raises `AttributeError`; the surrounding `except Exception` swallows it and
the method returns `None`.  Through this path the cache can never report a
hit. -/
def checkCache {ρ} (_store : CacheStore ρ) (_params : SearchParams) :
    Option (SearchResult ρ) :=
  none

structure SearchToolOutcome (ρ : Type) where
  result : SearchResult ρ
  providerCalled : Bool
  store : CacheStore ρ

/-- `AmadeusSearchTool.search`, with a cache manager wired in (as the search
node does).  `provider` is `amadeus_client.search_flights`; a `.error` result
models a raised exception.  `durMs` stands for the measured wall-clock search
duration. -/
def amadeusSearchTool {ρ} (provider : SearchParams → Except String ρ)
    (nowMin : Int) (durMs : Nat) (store : CacheStore ρ) (s : TravelState ρ) :
    SearchToolOutcome ρ :=
  if !s.ready_for_api then
    ⟨{ success := false, error := some "Internal validation error - search blocked",
       cached := false }, false, store⟩
  else
    match extractSearchParams s with
    | .error e =>
      ⟨{ success := false, error := some ("Parameter extraction failed: " ++ e),
         cached := false }, false, store⟩
    | .ok params =>
      match checkCache store params with
      | some res => ⟨res, false, store⟩
      | none =>
        match provider params with
        | .ok results =>
          let key := createCacheKeyTool params
          ⟨{ success := true, results := some results, cached := false,
             cache_key := some key, search_duration_ms := some durMs },
           true, cacheResults store nowMin 3600 key results⟩
        | .error e =>
          ⟨{ success := false, error := some ("Amadeus API search failed: " ++ e),
             cached := false }, true, store⟩

/-! ## Search node and routing (app/langgraph/nodes/search_flights.py,
app/langgraph/graph.py) -/

def optNatTruthy : Option Nat → Bool
  | none => false
  | some n => !(n == 0)

/-- `_generate_error_response`. -/
def generateErrorResponse (error : Option String) : String :=
  if !optStrTruthy error then
    "I had trouble searching for flights. Please try again in a moment."
  else
    let e := lowerStr (error.getD "")
    if containsStr e "timeout" || containsStr e "network" then
      "The flight search is taking longer than usual. Please try again in a moment."
    else if containsStr e "rate limit" || containsStr e "too many" then
      "We're experiencing high demand. Please wait a moment and try again."
    else if containsStr e "not found" || containsStr e "no flights" then
      "No flights found for your search. Try adjusting your dates or destinations."
    else if containsStr e "invalid" && (containsStr e "airport" || containsStr e "code") then
      "I couldn't recognize one of the airports. Could you check your departure and arrival cities?"
    else if containsStr e "date" then
      "There was an issue with your travel dates. Could you double-check them?"
    else
      "I'm having trouble searching for flights right now. Please try again in a moment."

/-- `_get_trip_summary` (the slot keys are always present, so the `get`
defaults are never taken; a `None` value renders as Python would). -/
def getTripSummary {ρ} (s : TravelState ρ) : String :=
  let passengers : Int :=
    match s.passengers with
    | some n => if n == 0 then 1 else n
    | none => 1
  let summary := "from " ++ renderOptStr s.origin ++ " to " ++ renderOptStr s.destination
  let summary :=
    if passengers > 1 then
      summary ++ " for " ++ toString passengers ++ " passengers"
    else summary
  match s.trip_type with
  | .round_trip => summary ++ " (round-trip)"
  | .one_way => summary ++ " (one-way)"
  | .undecided => summary

/-- `_generate_cached_response`. -/
def generateCachedResponse {ρ} (s : TravelState ρ) : String :=
  "Found flights " ++ getTripSummary s
    ++ " (from recent search). Let me show you the options..."

/-- `_generate_fresh_response` (`if result.search_duration_ms:` is a Python
truthiness test, so a zero duration takes the plain branch). -/
def generateFreshResponse {ρ} (s : TravelState ρ) (r : SearchResult ρ) : String :=
  let ts := getTripSummary s
  if optNatTruthy r.search_duration_ms then
    let d := r.search_duration_ms.getD 0
    let note :=
      if d < 1000 then "quickly"
      else if d < 3000 then "in a moment"
      else "after checking all options"
    "Found flights " ++ ts ++ " " ++ note ++ "! Here are your best options..."
  else
    "Found flights " ++ ts ++ "! Here are your options..."

structure NodeOutcome (ρ : Type) where
  state : TravelState ρ
  providerCalled : Bool
  store : CacheStore ρ

/-- `SearchFlightsNode.__call__` (including `_handle_search_success` and
`_handle_search_failure`; the failure handler deliberately does not touch
`clarification_attempts`). -/
def searchFlightsNode {ρ} (provider : SearchParams → Except String ρ)
    (nowMin : Int) (nowIso : String) (durMs : Nat) (store : CacheStore ρ)
    (s : TravelState ρ) : NodeOutcome ρ :=
  if !s.ready_for_api then
    ⟨updateConversation nowIso (incrementClarificationAttempts s) s.user_message
       "Internal error - please try your search again.", false, store⟩
  else
    let o := amadeusSearchTool provider nowMin durMs store s
    if o.result.success then
      let updated := setSearchResults s o.result.results o.result.cached
      let response :=
        if o.result.cached then generateCachedResponse s
        else generateFreshResponse s o.result
      ⟨updateConversation nowIso updated s.user_message response,
       o.providerCalled, o.store⟩
    else
      ⟨updateConversation nowIso s s.user_message
         (generateErrorResponse o.result.error), o.providerCalled, o.store⟩

/-- `graph.should_search`. -/
def shouldSearch {ρ} (s : TravelState ρ) : String :=
  if s.ready_for_api then "search_flights" else "needs_clarification"

/-- `graph.should_present`. -/
def shouldPresent {ρ} (s : TravelState ρ) : String :=
  if s.search_results.isSome then "present_options" else "needs_clarification"

/-- `graph.needs_clarification_node` (the "placeholder" node: it increments
the attempt counter unconditionally). -/
def needsClarificationNode {ρ} (s : TravelState ρ) : TravelState ρ :=
  incrementClarificationAttempts s

/-- `graph.should_continue_clarification` (`"END"` stands for the langgraph
`END` sentinel). -/
def shouldContinueClarification {ρ} (s : TravelState ρ) : String :=
  if 3 ≤ s.clarification_attempts then "END" else "collect_info"

/-! ## Ranking selector (app/rank/selector.py, app/types.py) -/

/-- `FlightOption` (the float `price_total` is modelled as an exact ordered
value, which is all the selector compares). -/
structure FlightOption where
  id : String
  price_total : Rat
  currency : String
  duration_iso : String
  total_duration_minutes : Nat
  carrier : String
  segment_summary : String
  departure_iso : String
  arrival_iso : String
  booking_code : Option String := none
  deep_link : Option String := none
deriving DecidableEq, Repr

/-- `RankedResults`. -/
structure RankedResults where
  fastest : Option FlightOption
  cheapest : List FlightOption
deriving DecidableEq, Repr

/-- The `key=lambda x: x.total_duration_minutes` comparison. -/
def durLe (a b : FlightOption) : Prop :=
  a.total_duration_minutes ≤ b.total_duration_minutes

/-- The `key=lambda x: x.price_total` comparison. -/
def priceLe (a b : FlightOption) : Prop := a.price_total ≤ b.price_total

instance : DecidableRel durLe := fun a b =>
  inferInstanceAs (Decidable (a.total_duration_minutes ≤ b.total_duration_minutes))

instance : DecidableRel priceLe := fun a b =>
  inferInstanceAs (Decidable (a.price_total ≤ b.price_total))

instance : IsTotal FlightOption durLe :=
  ⟨fun a b => Nat.le_total a.total_duration_minutes b.total_duration_minutes⟩

instance : IsTrans FlightOption durLe :=
  ⟨fun _ _ _ hab hbc => Nat.le_trans hab hbc⟩

instance : IsTotal FlightOption priceLe :=
  ⟨fun a b => le_total a.price_total b.price_total⟩

instance : IsTrans FlightOption priceLe :=
  ⟨fun _ _ _ hab hbc => le_trans hab hbc⟩

/-- `rank_top`.  Python's `sorted` is a stable sort on a non-strict key
comparison, and a stable sort's output is uniquely determined, so
`List.insertionSort` (also stable for these reflexive total relations)
computes the same lists; `sorted_by_dur[0]` is its head (the sort of a
non-empty list is non-empty, hence `headD` with the first element as the
never-used default).  The accumulate-and-break loop over `sorted_by_price`
is `filter` then `take 2`. -/
def rank_top (options : List FlightOption) : RankedResults :=
  match options with
  | [] => ⟨none, []⟩
  | o :: os =>
    let sorted_by_dur := List.insertionSort durLe (o :: os)
    let fastest := sorted_by_dur.headD o
    let sorted_by_price := List.insertionSort priceLe (o :: os)
    let cheapest :=
      (sorted_by_price.filter (fun op => !(op.id == fastest.id))).take 2
    ⟨some fastest, cheapest⟩

/-! ## Concrete fixture states and inputs used by the witnesses -/

/-- A dummy `to_iso_date` collaborator; never consulted on the inputs the
theorems below evaluate (no correction date pattern matches them). -/
def noIsoDate : String → String := fun _ => ""

/-- A fully validated one-way state, as produced by the validation gate. -/
def stReady : TravelState Nat :=
  { createInitialState Nat with
    origin := some "NYC"
    destination := some "LON"
    departure_date := some "2025-12-15"
    passengers := some 1
    trip_type := .one_way
    trip_type_confirmed := true
    ready_for_api := true
    user_message := "find flights" }

/-- First identical-search outcome for the cache-idempotence scenario. -/
def c3FirstOutcome : SearchToolOutcome Nat :=
  amadeusSearchTool (fun _ => Except.ok 42) 0 100 [] stReady

/-- Second identical search, 30 minutes later (inside the 60-minute
freshness window), against the store left by the first. -/
def c3SecondOutcome : SearchToolOutcome Nat :=
  amadeusSearchTool (fun _ => Except.ok 42) 30 100 c3FirstOutcome.store stReady

/-- Outcome of the search node on a validated state whose provider call
raises. -/
def c4FailureOutcome : NodeOutcome Nat :=
  searchFlightsNode (fun _ => Except.error "Network timeout") 0
    "2025-12-01T10:00:00" 100 [] stReady

/-- A state holding a captured return date, about to process the explicit
one-way flip "one way". -/
def stC5 : TravelState Unit :=
  { createInitialState Unit with
    origin := some "NYC"
    destination := some "LON"
    departure_date := some "2025-12-15"
    return_date := some "2025-12-20"
    passengers := some 2
    trip_type := .round_trip
    trip_type_confirmed := true
    user_message := "one way" }

/-- The state after the one-way flip is processed through extraction and the
collect-info state update. -/
def c5Result : TravelState Unit :=
  updateStateWithExtraction stC5 (extractorRun noIsoDate "one way" stC5)

/-- An extraction result carrying a return date and no explicit trip type. -/
def r6ReturnOnly : ExtractionResult :=
  { extracted_fields := { return_date := some (some "2025-01-22") }
    field_confidence := [("return_date", 0.8)]
    ambiguous_fields := []
    suggested_clarifications := []
    extraction_method := "llm" }

/-- "Paris" arriving right after the system asked for the origin. -/
def stC8a : TravelState Unit :=
  { createInitialState Unit with
    conversation_history := [⟨"hi", "Where are you flying from?", "t0"⟩]
    user_message := "Paris" }

/-- "Paris" arriving right after a plain greeting (no pending question). -/
def stC8b : TravelState Unit :=
  { createInitialState Unit with
    conversation_history := [⟨"hi", "Hello! How can I help you today?", "t0"⟩]
    user_message := "Paris" }

/-- A state whose return date is on or before its departure date. -/
def stC7a : TravelState Unit :=
  { createInitialState Unit with
    departure_date := some "2025-03-10"
    return_date := some "2025-03-09" }

/-- A state whose return date is strictly after its departure date and within
a year of it. -/
def stC7b : TravelState Unit :=
  { createInitialState Unit with
    departure_date := some "2025-03-10"
    return_date := some "2025-03-11" }

/-- Two offers where the fastest and the cheapest differ. -/
def optFast : FlightOption :=
  { id := "F1", price_total := 200, currency := "USD", duration_iso := "PT5H"
    total_duration_minutes := 300, carrier := "AA"
    segment_summary := "NYC→LON (nonstop, 5h)", departure_iso := "d"
    arrival_iso := "a" }

def optCheap : FlightOption :=
  { id := "C1", price_total := 100, currency := "USD", duration_iso := "PT8H"
    total_duration_minutes := 480, carrier := "BA"
    segment_summary := "NYC→LON (1 stop, 8h)", departure_iso := "d"
    arrival_iso := "a" }

/-- A stale cache entry (written at minute 0). -/
def staleEntry : CacheEntry Nat := ⟨7, 0, 3600⟩

/-- A one-entry store holding `staleEntry` under the manager's key for the
NYC→LON search. -/
def staleStore : CacheStore Nat :=
  [("flight:" ++ createCacheKeyMgr (fun x => x) "NYC" "LON" "2025-12-15" none 1 "ECONOMY",
    staleEntry)]

/-! ### Validator lemmas: which strings each rule family can emit -/

theorem mem_locationLengthErrors {e v a b : String}
    (h : e ∈ locationLengthErrors v a b) : e = a ∨ e = b := by
  simp only [locationLengthErrors] at h
  split_ifs at h <;> simp_all

theorem mem_dateFormatErrors {today : SimpleDate} {e v a b c : String}
    (h : e ∈ dateFormatErrors today v a b c) : e = a ∨ e = b ∨ e = c := by
  unfold dateFormatErrors at h
  split at h
  · simp_all
  · split at h
    · split_ifs at h <;> simp_all
    · simp_all

theorem mem_validateFieldFormats {ρ} {today : SimpleDate} {s : TravelState ρ}
    {e : String} (h : e ∈ validateFieldFormats today s) :
    e ∈ fieldFormatErrorStrings := by
  unfold validateFieldFormats at h
  simp only [List.mem_append] at h
  rcases h with ((h | h) | h) | h <;>
    [skip; skip; skip; skip] <;>
    · split at h
      · first
          | (rcases mem_locationLengthErrors h with rfl | rfl <;> simp [fieldFormatErrorStrings])
          | (rcases mem_dateFormatErrors h with rfl | rfl | rfl <;> simp [fieldFormatErrorStrings])
      · simp_all

theorem mem_validateTripTypeLogic {ρ} {s : TravelState ρ} {e : String}
    (h : e ∈ validateTripTypeLogic s) : e ∈ tripTypeErrorStrings := by
  unfold validateTripTypeLogic at h
  simp only [List.mem_append] at h
  rcases h with (h | h) | h <;> split_ifs at h <;> simp_all [tripTypeErrorStrings]

theorem mem_validatePassengerCount {ρ} {s : TravelState ρ} {e : String}
    (h : e ∈ validatePassengerCount s) : e ∈ passengerErrorStrings := by
  unfold validatePassengerCount at h
  split at h
  · simp_all [passengerErrorStrings]
  · split_ifs at h <;> simp_all [passengerErrorStrings]

theorem parseIsoDate_pattern {s : String} {d : SimpleDate}
    (h : parseIsoDate s = some d) : matchesDatePattern s = true := by
  unfold parseIsoDate at h
  by_cases hp : matchesDatePattern s = true
  · exact hp
  · simp [hp] at h

theorem parseIsoDate_truthy {s : String} {d : SimpleDate}
    (h : parseIsoDate s = some d) : optStrTruthy (some s) = true := by
  have hp := parseIsoDate_pattern h
  unfold optStrTruthy
  by_cases he : s = ""
  · subst he
    simp [matchesDatePattern, String.toList] at hp
  · simpa using he

/-- C1: `ready_for_api` is true iff no missing required fields, no validation
errors, and a confirmed trip type in {one_way, round_trip}. -/
theorem validator_ready_for_api_iff {ρ} (today : SimpleDate) (sod : Nat)
    (s : TravelState ρ) :
    (validate today sod s).ready_for_api = true ↔
      ((validate today sod s).missing_required = []
        ∧ (validate today sod s).validation_errors = []
        ∧ (s.trip_type = .one_way ∨ s.trip_type = .round_trip)
        ∧ s.trip_type_confirmed = true) := by
  simp only [validate, hasTripTypeDecision, Bool.and_eq_true,
    List.isEmpty_iff, decide_eq_true_eq]
  tauto

/-- C7, part 1: with both dates parsing, `return_date ≤ departure_date` puts
the return-after-departure error in the validator's error list. -/
theorem roundTrip_dates_rule_mem {ρ} (today : SimpleDate) (sod : Nat)
    (s : TravelState ρ) (depS retS : String) (dep ret : SimpleDate)
    (hdep : s.departure_date = some depS) (hret : s.return_date = some retS)
    (hpd : parseIsoDate depS = some dep) (hpr : parseIsoDate retS = some ret)
    (hord : ret.toOrdinal ≤ dep.toOrdinal) :
    "Return date must be after departure date"
      ∈ (validate today sod s).validation_errors := by
  have htd := parseIsoDate_truthy hpd
  have htr := parseIsoDate_truthy hpr
  simp only [validate, List.mem_append]
  refine Or.inl (Or.inl (Or.inr ?_))
  unfold validateBusinessRules
  simp only [List.mem_append]
  refine Or.inl (Or.inr ?_)
  rw [hdep, hret]
  simp only [htd, htr, Bool.and_self, if_true, hpd, hpr, if_pos hord,
    List.mem_append, List.mem_singleton]
  tauto

/-- C7, part 2: with `departure_date < return_date` and a trip length of at
most 365 days, neither the return-after-departure rule nor the trip-duration
rule contributes an error. -/
theorem roundTrip_dates_rule_ok {ρ} (today : SimpleDate) (sod : Nat)
    (s : TravelState ρ) (depS retS : String) (dep ret : SimpleDate)
    (hdep : s.departure_date = some depS) (hret : s.return_date = some retS)
    (hpd : parseIsoDate depS = some dep) (hpr : parseIsoDate retS = some ret)
    (hord : dep.toOrdinal < ret.toOrdinal)
    (hdur : (ret.toOrdinal : Int) - (dep.toOrdinal : Int) ≤ 365) :
    "Return date must be after departure date"
        ∉ (validate today sod s).validation_errors
      ∧ "Trip duration cannot exceed 1 year"
        ∉ (validate today sod s).validation_errors := by
  have htd := parseIsoDate_truthy hpd
  have htr := parseIsoDate_truthy hpr
  have hbr : validateBusinessRules today s
      = (match s.origin, s.destination with
         | some o, some d =>
           if optStrTruthy s.origin && optStrTruthy s.destination
               && (upperStr o == upperStr d) then
             ["Origin and destination cannot be the same"]
           else []
         | _, _ => [])
        ++ ([] : List String)
        ++ (match s.departure_date with
            | some dv =>
              if optStrTruthy s.departure_date then
                match parseIsoDate dv with
                | some dep =>
                  if dep.toOrdinal > today.toOrdinal + 730 then
                    ["Departure date cannot be more than 2 years in the future"]
                  else []
                | none => []
              else []
            | none => []) := by
    unfold validateBusinessRules
    rw [hdep, hret]
    simp only [htd, htr, Bool.and_self, if_true, hpd, hpr]
    rw [if_neg (by omega), if_neg (by omega)]
    simp
  constructor <;>
  · intro hmem
    simp only [validate, List.mem_append] at hmem
    rcases hmem with ((hmem | hmem) | hmem) | hmem
    · have := mem_validateFieldFormats hmem
      simp [fieldFormatErrorStrings] at this
    · rw [hbr] at hmem
      simp only [List.mem_append] at hmem
      rcases hmem with (hmem | hmem) | hmem
      · split at hmem
        · split_ifs at hmem <;> simp_all
        · simp at hmem
      · simp at hmem
      · split at hmem
        · split_ifs at hmem
          · split at hmem
            · split_ifs at hmem <;> simp_all
            · simp at hmem
          · simp at hmem
        · simp at hmem
    · have := mem_validateTripTypeLogic hmem
      simp [tripTypeErrorStrings] at this
    · have := mem_validatePassengerCount hmem
      simp [passengerErrorStrings] at this

/-- C7: for valid calendar dates (strings accepted by the ISO parser), a
return date on-or-before the departure date puts the return-after-departure
error in the Validator's error list, while a return date strictly after the
departure and at most 365 days later makes both the return-after-departure
rule and the trip-duration rule silent. -/
theorem validator_roundtrip_date_rules {ρ} (today : SimpleDate) (sod : Nat)
    (s : TravelState ρ) (depS retS : String) (dep ret : SimpleDate)
    (hdep : s.departure_date = some depS) (hret : s.return_date = some retS)
    (hpd : parseIsoDate depS = some dep) (hpr : parseIsoDate retS = some ret) :
    (ret.toOrdinal ≤ dep.toOrdinal →
      "Return date must be after departure date"
        ∈ (validate today sod s).validation_errors)
    ∧ (dep.toOrdinal < ret.toOrdinal →
        (ret.toOrdinal : Int) - (dep.toOrdinal : Int) ≤ 365 →
        "Return date must be after departure date"
            ∉ (validate today sod s).validation_errors
          ∧ "Trip duration cannot exceed 1 year"
            ∉ (validate today sod s).validation_errors) :=
  ⟨fun hord => roundTrip_dates_rule_mem today sod s depS retS dep ret
      hdep hret hpd hpr hord,
   fun h1 h2 => roundTrip_dates_rule_ok today sod s depS retS dep ret
      hdep hret hpd hpr h1 h2⟩

/-- Witness for C7 at two concrete date pairs. -/
theorem validator_roundtrip_date_rules_witness :
    ("Return date must be after departure date"
        ∈ (validate ⟨2025, 1, 1⟩ 0 stC7a).validation_errors)
    ∧ ("Return date must be after departure date"
          ∉ (validate ⟨2025, 1, 1⟩ 0 stC7b).validation_errors
        ∧ "Trip duration cannot exceed 1 year"
          ∉ (validate ⟨2025, 1, 1⟩ 0 stC7b).validation_errors) :=
  ⟨(validator_roundtrip_date_rules ⟨2025, 1, 1⟩ 0 stC7a "2025-03-10" "2025-03-09"
      ⟨2025, 3, 10⟩ ⟨2025, 3, 9⟩ rfl rfl (by decide) (by decide)).1 (by decide),
   (validator_roundtrip_date_rules ⟨2025, 1, 1⟩ 0 stC7b "2025-03-10" "2025-03-11"
      ⟨2025, 3, 10⟩ ⟨2025, 3, 11⟩ rfl rfl (by decide) (by decide)).2
     (by decide) (by decide)⟩

/-- C2: a state that is not `ready_for_api` makes the search executor return
the internal-error failure without any provider call (both at the tool and at
the node level), and conversely the provider is only ever called on states
with `ready_for_api = true`. -/
theorem searchExecutor_gate {ρ} (provider : SearchParams → Except String ρ)
    (nowMin : Int) (nowIso : String) (durMs : Nat) (store : CacheStore ρ)
    (s : TravelState ρ) :
    (s.ready_for_api = false →
      (amadeusSearchTool provider nowMin durMs store s).providerCalled = false
      ∧ (amadeusSearchTool provider nowMin durMs store s).result.success = false
      ∧ (amadeusSearchTool provider nowMin durMs store s).result.error
          = some "Internal validation error - search blocked"
      ∧ (searchFlightsNode provider nowMin nowIso durMs store s).providerCalled = false
      ∧ (searchFlightsNode provider nowMin nowIso durMs store s).state.bot_response
          = "Internal error - please try your search again.")
    ∧ ((amadeusSearchTool provider nowMin durMs store s).providerCalled = true →
        s.ready_for_api = true) := by
  constructor
  · intro h
    refine ⟨?_, ?_, ?_, ?_, ?_⟩ <;>
      simp [amadeusSearchTool, searchFlightsNode, updateConversation, h]
  · intro h
    by_cases hr : s.ready_for_api = true
    · exact hr
    · rw [Bool.not_eq_true] at hr
      simp [amadeusSearchTool, hr] at h

/-- Witness for C2 on the empty initial state (which is not ready). -/
theorem searchExecutor_gate_witness :
    (amadeusSearchTool (fun _ => Except.ok 0) 0 100 ([] : CacheStore Nat)
        (createInitialState Nat)).providerCalled = false
    ∧ (searchFlightsNode (fun _ => Except.ok 0) 0 "t" 100 ([] : CacheStore Nat)
        (createInitialState Nat)).state.bot_response
      = "Internal error - please try your search again." := by
  have h := (searchExecutor_gate (fun _ => Except.ok 0) 0 "t" 100
    ([] : CacheStore Nat) (createInitialState Nat)).1 rfl
  exact ⟨h.1, h.2.2.2.2⟩

/-- C3 (code bug): the first validated NYC→LON search stores its payload
under the normalized key, yet the identical search 30 minutes later (well
inside the 60-minute freshness window) is tagged `cached = false` and calls
the provider a second time — `_check_cache` invokes the nonexistent
`cache_manager.get_cached_results`, and the swallowed `AttributeError` turns
every lookup into a miss. -/
theorem secondIdenticalSearch_not_cached :
    c3FirstOutcome.providerCalled = true
    ∧ storeLookup c3FirstOutcome.store "flight:NYC|LON|2025-12-15|ONEWAY|1"
        = some ⟨42, 0, 3600⟩
    ∧ c3SecondOutcome.providerCalled = true
    ∧ c3SecondOutcome.result.cached = false := by
  refine ⟨rfl, ?_, rfl, rfl⟩
  rfl

/-- C4 (code bug): after a provider-level failure the search node itself
leaves `clarification_attempts` untouched and the turn routes to the
clarification node — but that node increments the counter unconditionally, so
the state the turn hands onward has the counter incremented. -/
theorem providerFailure_clarification_counter :
    c4FailureOutcome.state.clarification_attempts = 0
    ∧ c4FailureOutcome.state.bot_response
        = "The flight search is taking longer than usual. Please try again in a moment."
    ∧ shouldPresent c4FailureOutcome.state = "needs_clarification"
    ∧ (needsClarificationNode c4FailureOutcome.state).clarification_attempts = 1 := by
  refine ⟨rfl, ?_, rfl, rfl⟩
  rfl

/-- C5 (code bug): the explicit one-way flip "one way" on a state with a
captured return date flips `trip_type` to confirmed one-way and the
correction map carries `return_date = None`, yet the merged state still holds
the old return date — `add_extracted_info` skips `None` values, so the clear
never lands. -/
theorem oneWayFlip_keeps_return_date :
    (extractorRun noIsoDate "one way" stC5).extracted_fields.trip_type
        = some .one_way
    ∧ (extractorRun noIsoDate "one way" stC5).extracted_fields.return_date
        = some none
    ∧ c5Result.trip_type = .one_way
    ∧ c5Result.trip_type_confirmed = true
    ∧ c5Result.return_date = some "2025-12-20" := by
  refine ⟨rfl, rfl, ?_, ?_, ?_⟩ <;> rfl

/-- C6 (counterexample): on the empty state, an extraction carrying only a
return date yields trip_type = round_trip with `trip_type_confirmed = true`,
not `false` as claimed. -/
theorem returnDate_inference_counterexample :
    (updateStateWithExtraction (createInitialState Unit) r6ReturnOnly).trip_type
        = .round_trip
    ∧ (updateStateWithExtraction (createInitialState Unit) r6ReturnOnly).trip_type_confirmed
        = true := by
  exact ⟨rfl, rfl⟩

/-- C6 (amended): a turn whose extraction yields a (truthy) return date and
no explicit trip type updates the state to trip_type = round_trip with
`trip_type_confirmed = true` (the source passes `True` to `set_trip_type`). -/
theorem returnDate_infers_confirmed_roundtrip {ρ} (s : TravelState ρ)
    (r : ExtractionResult) (d : String)
    (hrt : r.extracted_fields.return_date = some (some d)) (hne : d ≠ "")
    (htt : r.extracted_fields.trip_type = none) :
    (updateStateWithExtraction s r).trip_type = .round_trip
    ∧ (updateStateWithExtraction s r).trip_type_confirmed = true := by
  have hempty : r.extracted_fields.isEmptyMap = false := by
    simp [FieldMap.isEmptyMap, hrt]
  have htruthy : optStrTruthy (some d) = true := by
    simpa [optStrTruthy] using hne
  unfold updateStateWithExtraction
  rw [hempty]
  simp only [Bool.false_eq_true, if_false, htt, hrt, htruthy, if_true]
  split <;> exact ⟨rfl, rfl⟩

/-- Witness for the amended C6 at the concrete extraction result. -/
theorem returnDate_infers_confirmed_roundtrip_witness :
    (updateStateWithExtraction (createInitialState Nat) r6ReturnOnly).trip_type
        = .round_trip
    ∧ (updateStateWithExtraction (createInitialState Nat) r6ReturnOnly).trip_type_confirmed
        = true :=
  returnDate_infers_confirmed_roundtrip (createInitialState Nat) r6ReturnOnly
    "2025-01-22" rfl (by decide) rfl

/-- C8: the single-city fallback assigns "Paris" to the unset origin when the
last system question asked where the user is flying from; the same utterance
after a plain greeting extracts nothing and leaves the state untouched; and
an utterance equal to any word of the fixed filler block-list never sets a
location field, on any state. -/
theorem singleCityFallback_behaviour :
    ((extractorRun noIsoDate "Paris" stC8a).extracted_fields.origin = some "PARIS"
      ∧ (updateStateWithExtraction stC8a
          (extractorRun noIsoDate "Paris" stC8a)).origin = some "PARIS")
    ∧ ((extractorRun noIsoDate "Paris" stC8b).extracted_fields = {}
      ∧ updateStateWithExtraction stC8b (extractorRun noIsoDate "Paris" stC8b) = stC8b)
    ∧ (∀ (ρ : Type) (s : TravelState ρ) (toIso : String → String) (w : String),
        w ∈ forbiddenWords →
          (extractorRun toIso w s).extracted_fields.origin = none
          ∧ (extractorRun toIso w s).extracted_fields.destination = none
          ∧ (updateStateWithExtraction s (extractorRun toIso w s)).origin = s.origin
          ∧ (updateStateWithExtraction s (extractorRun toIso w s)).destination
              = s.destination) := by
  refine ⟨⟨rfl, rfl⟩, ⟨rfl, rfl⟩, ?_⟩
  intro ρ s toIso w hw
  fin_cases hw <;> exact ⟨rfl, rfl, rfl, rfl⟩

/-- Witness for C8's block-list clause at the word "hello" on the empty
state. -/
theorem singleCityFallback_behaviour_witness :
    (extractorRun noIsoDate "hello" (createInitialState Unit)).extracted_fields.origin
        = none
    ∧ (extractorRun noIsoDate "hello" (createInitialState Unit)).extracted_fields.destination
        = none
    ∧ (updateStateWithExtraction (createInitialState Unit)
        (extractorRun noIsoDate "hello" (createInitialState Unit))).origin = none
    ∧ (updateStateWithExtraction (createInitialState Unit)
        (extractorRun noIsoDate "hello" (createInitialState Unit))).destination
        = none :=
  singleCityFallback_behaviour.2.2 Unit (createInitialState Unit) noIsoDate
    "hello" (by decide)

/-- C10: whenever the key has a cached entry (fresh or stale), a raising
provider fetch never propagates — the entry is returned instead; an exception
propagates out of `get_cached_or_fetch` only when no entry exists for the
key. -/
theorem staleCache_fallback {ρ} (md5hex : String → String) (nowMin : Int)
    (store : CacheStore ρ) (hits misses : Nat)
    (origin destination dep : String) (ret : Option String) (adults : Int) :
    (∀ (e : CacheEntry ρ) (err : String),
      getCachedSearch store
          (createCacheKeyMgr md5hex origin destination dep ret adults "ECONOMY")
        = some e →
      (getCachedOrFetch md5hex nowMin store hits misses origin destination dep
          ret adults (.error err)).value = .ok (.entry e))
    ∧ (∀ (fetch : Except String ρ) (ε : String),
      (getCachedOrFetch md5hex nowMin store hits misses origin destination dep
          ret adults fetch).value = .error ε →
      getCachedSearch store
          (createCacheKeyMgr md5hex origin destination dep ret adults "ECONOMY")
        = none
      ∧ fetch = .error ε) := by
  constructor
  · intro e err h
    simp only [getCachedOrFetch, h]
    split_ifs <;> rfl
  · intro fetch ε h
    simp only [getCachedOrFetch] at h
    cases hc : getCachedSearch store
        (createCacheKeyMgr md5hex origin destination dep ret adults "ECONOMY") with
    | some e =>
      exfalso
      rw [hc] at h
      dsimp only at h
      split_ifs at h
      cases fetch <;> dsimp only at h <;> simp at h
    | none =>
      rw [hc] at h
      dsimp only at h
      cases hf : fetch with
      | ok r => rw [hf] at h; dsimp only at h; simp at h
      | error ex =>
        rw [hf] at h
        dsimp only at h
        simp only [Except.error.injEq] at h
        exact ⟨rfl, by rw [h]⟩

/-- Witness for C10: a stale entry is served when the fetch raises, and with
an empty store the exception propagates. -/
theorem staleCache_fallback_witness :
    (getCachedOrFetch (fun x => x) 100000 staleStore 0 0 "NYC" "LON"
        "2025-12-15" none 1 (.error "timeout")).value = .ok (.entry staleEntry)
    ∧ ((getCachedOrFetch (fun x => x) 100000 ([] : CacheStore Nat) 0 0 "NYC" "LON"
        "2025-12-15" none 1 (.error "boom")).value = .error "boom"
      → getCachedSearch ([] : CacheStore Nat)
          (createCacheKeyMgr (fun x => x) "NYC" "LON" "2025-12-15" none 1 "ECONOMY")
          = none ∧ (.error "boom" : Except String Nat) = .error "boom") :=
  ⟨(staleCache_fallback (fun x => x) 100000 staleStore 0 0 "NYC" "LON"
      "2025-12-15" none 1).1 staleEntry "timeout" rfl,
   fun h => (staleCache_fallback (fun x => x) 100000 ([] : CacheStore Nat) 0 0
      "NYC" "LON" "2025-12-15" none 1).2 (.error "boom") "boom" h⟩

/-- C9: on the empty offer list the selection is the explicit empty
presentation; on any non-empty list, "fastest" is an offer of minimum total
duration, "cheapest" has at most two entries, each a listed offer whose id
differs from the fastest pick, it is non-empty whenever an alternative id
exists, and its entries are price-minimal among the non-fastest offers left
out of it. -/
theorem rank_top_selection :
    rank_top [] = ⟨none, []⟩
    ∧ ∀ (l : List FlightOption), l ≠ [] →
        ∃ f, (rank_top l).fastest = some f
          ∧ f ∈ l
          ∧ (∀ o ∈ l, f.total_duration_minutes ≤ o.total_duration_minutes)
          ∧ (rank_top l).cheapest.length ≤ 2
          ∧ (∀ c ∈ (rank_top l).cheapest, c ∈ l ∧ c.id ≠ f.id)
          ∧ ((∃ o ∈ l, o.id ≠ f.id) → (rank_top l).cheapest ≠ [])
          ∧ (∀ c ∈ (rank_top l).cheapest, ∀ o ∈ l, o.id ≠ f.id →
              o ∉ (rank_top l).cheapest → c.price_total ≤ o.price_total) := by
  refine ⟨rfl, ?_⟩
  intro l hl
  obtain ⟨o, os, rfl⟩ := List.exists_cons_of_ne_nil hl
  have hperm_d : List.Perm (List.insertionSort durLe (o :: os)) (o :: os) :=
    List.perm_insertionSort durLe (o :: os)
  have hSd_ne : List.insertionSort durLe (o :: os) ≠ [] := by
    intro hnil
    have := hperm_d.length_eq
    rw [hnil] at this
    simp at this
  obtain ⟨f, t, hft⟩ := List.exists_cons_of_ne_nil hSd_ne
  have hhead : (List.insertionSort durLe (o :: os)).headD o = f := by
    rw [hft]; rfl
  have hsorted_d : List.Sorted durLe (List.insertionSort durLe (o :: os)) :=
    List.sorted_insertionSort durLe (o :: os)
  have hf_mem : f ∈ o :: os := by
    refine hperm_d.mem_iff.mp ?_
    rw [hft]
    exact List.mem_cons_self f t
  have hmin : ∀ x ∈ o :: os, f.total_duration_minutes ≤ x.total_duration_minutes := by
    intro x hx
    have hx' : x ∈ List.insertionSort durLe (o :: os) := hperm_d.mem_iff.mpr hx
    rw [hft] at hx' hsorted_d
    rcases List.mem_cons.mp hx' with rfl | hx'
    · exact Nat.le_refl _
    · exact (List.sorted_cons.mp hsorted_d).1 x hx'
  have hrt : rank_top (o :: os)
      = ⟨some f,
         ((List.insertionSort priceLe (o :: os)).filter
            (fun op => !(op.id == f.id))).take 2⟩ := by
    show (⟨some ((List.insertionSort durLe (o :: os)).headD o), _⟩ : RankedResults) = _
    rw [hhead]
  have hperm_p : List.Perm (List.insertionSort priceLe (o :: os)) (o :: os) :=
    List.perm_insertionSort priceLe (o :: os)
  have hsorted_p : List.Sorted priceLe (List.insertionSort priceLe (o :: os)) :=
    List.sorted_insertionSort priceLe (o :: os)
  have hFpw : List.Pairwise priceLe
      ((List.insertionSort priceLe (o :: os)).filter
        (fun op => !(op.id == f.id))) :=
    List.Pairwise.sublist (List.filter_sublist _) hsorted_p
  have hmemF : ∀ x, x ∈ (List.insertionSort priceLe (o :: os)).filter
      (fun op => !(op.id == f.id)) ↔ x ∈ o :: os ∧ x.id ≠ f.id := by
    intro x
    rw [List.mem_filter, hperm_p.mem_iff]
    simp
  refine ⟨f, by rw [hrt], hf_mem, hmin, ?_, ?_, ?_, ?_⟩
  · rw [hrt]
    simp [List.length_take_le]
  · intro c hc
    rw [hrt] at hc
    exact (hmemF c).mp (List.mem_of_mem_take hc)
  · rintro ⟨alt, haltmem, haltid⟩
    rw [hrt]
    have haltF : alt ∈ (List.insertionSort priceLe (o :: os)).filter
        (fun op => !(op.id == f.id)) := (hmemF alt).mpr ⟨haltmem, haltid⟩
    intro htake
    rcases hF : (List.insertionSort priceLe (o :: os)).filter
        (fun op => !(op.id == f.id)) with _ | ⟨x, xs⟩
    · rw [hF] at haltF; simp at haltF
    · rw [hF] at htake; simp at htake
  · intro c hc oo hoomem hooid hoonin
    rw [hrt] at hc hoonin
    have hooF : oo ∈ (List.insertionSort priceLe (o :: os)).filter
        (fun op => !(op.id == f.id)) := (hmemF oo).mpr ⟨hoomem, hooid⟩
    have hsplit := List.take_append_drop 2
      ((List.insertionSort priceLe (o :: os)).filter (fun op => !(op.id == f.id)))
    have hpw2 : List.Pairwise priceLe
        (((List.insertionSort priceLe (o :: os)).filter
            (fun op => !(op.id == f.id))).take 2
          ++ ((List.insertionSort priceLe (o :: os)).filter
            (fun op => !(op.id == f.id))).drop 2) := by
      rw [hsplit]; exact hFpw
    have hcross := (List.pairwise_append.mp hpw2).2.2
    have : oo ∈ ((List.insertionSort priceLe (o :: os)).filter
          (fun op => !(op.id == f.id))).take 2
        ∨ oo ∈ ((List.insertionSort priceLe (o :: os)).filter
          (fun op => !(op.id == f.id))).drop 2 := by
      rw [← List.mem_append, hsplit]
      exact hooF
    rcases this with hin | hin
    · exact absurd hin hoonin
    · exact hcross c hc oo hin

/-- Witness for C9 on a concrete two-offer list. -/
theorem rank_top_selection_witness :
    ∃ f, (rank_top [optFast, optCheap]).fastest = some f
      ∧ f ∈ [optFast, optCheap]
      ∧ (∀ o ∈ [optFast, optCheap],
          f.total_duration_minutes ≤ o.total_duration_minutes)
      ∧ (rank_top [optFast, optCheap]).cheapest.length ≤ 2
      ∧ (∀ c ∈ (rank_top [optFast, optCheap]).cheapest,
          c ∈ [optFast, optCheap] ∧ c.id ≠ f.id)
      ∧ ((∃ o ∈ [optFast, optCheap], o.id ≠ f.id)
          → (rank_top [optFast, optCheap]).cheapest ≠ [])
      ∧ (∀ c ∈ (rank_top [optFast, optCheap]).cheapest,
          ∀ o ∈ [optFast, optCheap], o.id ≠ f.id →
          o ∉ (rank_top [optFast, optCheap]).cheapest →
          c.price_total ≤ o.price_total) :=
  rank_top_selection.2 [optFast, optCheap] (by simp)

end WhatsappFlights
